import Mathlib

/-
Shallow embedding of the OpenAPIConnector plugin
(src/test-engine-core-modules/src/openapiconnector/openapiconnector.py).
Pure data and control flow are translated into executable Lean definitions;
external library calls (schema validation, client construction, the
per-attempt network outcome, authenticate) are passed in as explicit
oracle arguments.
-/

namespace OpenAPIConnector

/-- An HTTP response as seen by the transport: status code and body text. -/
structure Response where
  statusCode : Nat
  text : String
deriving DecidableEq, Repr

/-- Outcome of one dispatch through the underlying transport: either a
network-level failure (ConnectTimeout, ReadTimeout, NetworkError) carrying
the exception text, or a response. -/
inductive AttemptOutcome
  | netError (msg : String)
  | response (r : Response)
deriving DecidableEq, Repr

/-- Transport configuration received by the OpenAPICustomTransport
constructor: retries and rate-limit timeout. The backoff factor and the
retryable status-code list are class attributes the constructor never
overrides, so they are constants below. -/
structure TransportConfig where
  retries : Nat
  rateLimitTimeout : ℚ
deriving DecidableEq, Repr

/-- Defaults used by the Plugin: api retries 3, rate limit timeout 5.0s. -/
def defaultTransportConfig : TransportConfig :=
  { retries := 3, rateLimitTimeout := 5 }

/-- Class attribute api status code list: [429, 500, 502, 503, 504]. -/
def apiStatusCodes : List Nat := [429, 500, 502, 503, 504]

/-- Class attribute api backoff factor 2.0 (exact as a rational). -/
def apiBackoffFactor : ℚ := 2

/-- Python str.lower on the ascii names the source compares: lower each
character of the string. -/
def strLower (s : String) : String :=
  String.mk (s.data.map Char.toLower)

/-- Names produced by http.HTTPStatus(code).name for the retryable codes,
the only codes the source ever formats this way. -/
def httpStatusName (c : Nat) : String :=
  if c = 429 then "TOO_MANY_REQUESTS"
  else if c = 500 then "INTERNAL_SERVER_ERROR"
  else if c = 502 then "BAD_GATEWAY"
  else if c = 503 then "SERVICE_UNAVAILABLE"
  else if c = 504 then "GATEWAY_TIMEOUT"
  else "UNKNOWN"

/-- The retryable-status message built in handle_async_request. -/
def statusMsg (c : Nat) : String :=
  "Response status code: " ++ toString c ++ " (" ++ httpStatusName c ++ ")"

/-- The terminal message built in the finally clause of
handle_async_request. -/
def maxMsg (cfg : TransportConfig) (errMsg : String) : String :=
  "Maximum retries exceeded (" ++ toString cfg.retries ++ ") " ++ errMsg

/-- handle_attempt_retries: returns the duration slept, or none when no
sleep happens (attempt equals the retry budget). The Python guard is
written as status_code and status_code == 429; a None or zero status is
falsy and zero is not 429, so it is exactly status = some 429. Python
int() truncation agrees with Int.floor on the nonnegative products
arising from the fixed backoff factor 2.0. -/
def handleAttemptRetries (cfg : TransportConfig) (attempt : Nat)
    (statusCode : Option Nat) : Option ℚ :=
  if attempt = cfg.retries then none
  else if statusCode = some 429 then some cfg.rateLimitTimeout
  else some (((Int.floor (apiBackoffFactor * (2 : ℚ) ^ ((attempt : ℤ) - 1)) : ℤ) : ℚ))

/-- Observable events of one transport send: a dispatch through the
underlying transport, a backoff sleep, or a write of the shared error
message through the response error callback. -/
inductive TransportEvent
  | netEv
  | sleepEv (seconds : ℚ)
  | writeErr (msg : String)
deriving DecidableEq, Repr

/-- Is this outcome retryable for the loop: any network error, or a
response whose status is in the retryable list. -/
def retryableOutcome : AttemptOutcome → Bool
  | .netError _ => true
  | .response r => apiStatusCodes.contains r.statusCode

/-- The error text the loop stores for an attempt outcome. -/
def outcomeMsg : AttemptOutcome → String
  | .netError m => m
  | .response r => statusMsg r.statusCode

/-- One iteration of the for loop in handle_async_request, including the
finally clause, which runs even when the else branch is about to return
and, on the terminal attempt, writes the shared error state and raises,
discarding any pending return. Result: Sum.inl for loop exit (return or
raise), Sum.inr carrying the error message for the next iteration. -/
def attemptStep (cfg : TransportConfig) (attempt : Nat) (errMsg : String)
    (out : AttemptOutcome) :
    List TransportEvent × (Except String Response ⊕ String) :=
  match out with
  | .netError m =>
    let sleeps := match handleAttemptRetries cfg attempt none with
      | some t => [TransportEvent.sleepEv t]
      | none => []
    if attempt = cfg.retries then
      let fin := maxMsg cfg m
      (TransportEvent.netEv :: sleeps ++ [TransportEvent.writeErr fin],
        Sum.inl (Except.error fin))
    else
      (TransportEvent.netEv :: sleeps, Sum.inr m)
  | .response r =>
    if apiStatusCodes.contains r.statusCode then
      let m := statusMsg r.statusCode
      let sleeps := match handleAttemptRetries cfg attempt (some r.statusCode) with
        | some t => [TransportEvent.sleepEv t]
        | none => []
      if attempt = cfg.retries then
        let fin := maxMsg cfg m
        (TransportEvent.netEv :: sleeps ++ [TransportEvent.writeErr fin],
          Sum.inl (Except.error fin))
      else
        (TransportEvent.netEv :: sleeps, Sum.inr m)
    else
      if attempt = cfg.retries then
        let fin := maxMsg cfg errMsg
        ([TransportEvent.netEv, TransportEvent.writeErr fin],
          Sum.inl (Except.error fin))
      else
        ([TransportEvent.netEv], Sum.inl (Except.ok r))

/-- The retry loop of handle_async_request, driven by an oracle giving
the outcome of each attempt. Fuel counts the remaining iterations of
range(retries + 1). -/
def runLoop (cfg : TransportConfig) (oracle : Nat → AttemptOutcome) :
    Nat → Nat → String → List TransportEvent × Except String Response
  | 0, _, _ => ([], Except.error "")
  | fuel + 1, attempt, errMsg =>
    match attemptStep cfg attempt errMsg (oracle attempt) with
    | (evs, Sum.inl res) => (evs, res)
    | (evs, Sum.inr m) =>
      let rest := runLoop cfg oracle fuel (attempt + 1) m
      (evs ++ rest.1, rest.2)

/-- handle_async_request: run the loop from attempt 0 with empty error
message, over retries + 1 iterations. -/
def handleAsyncRequest (cfg : TransportConfig)
    (oracle : Nat → AttemptOutcome) :
    List TransportEvent × Except String Response :=
  runLoop cfg oracle (cfg.retries + 1) 0 ""

/-- The value of the shared error slot after a sequence of transport
events, starting from an initial value: last writer wins. -/
def sharedAfter (init : String) (evs : List TransportEvent) : String :=
  evs.foldl (fun s e => match e with | .writeErr m => m | _ => s) init

/-- Observable behaviour of predict: what it prints and what it returns
or raises. A result of Except.ok none is the Python None return. -/
structure PredictOutcome where
  printed : List String
  result : Except String (Option String)
deriving Repr

/-- predict: on a successful request it prints responses.text and falls
off the end of the function, returning None; on a request error it
raises RuntimeError with the current shared error message, read without
taking the lock. -/
def predictModel (sharedMsg : String)
    (requestOutcome : Except String Response) : PredictOutcome :=
  match requestOutcome with
  | .ok r => { printed := [r.text], result := Except.ok none }
  | .error _ => { printed := [], result := Except.error sharedMsg }

/-- Primitive events for the lock discipline on the shared error slot:
acquiring and releasing the Plugin lock, reading or writing the slot,
and the two suspension points, network dispatch and backoff sleep. -/
inductive AccessEv
  | acq
  | rel
  | readSlot
  | writeSlot
  | netIO
  | sleepSusp
deriving DecidableEq, Repr

/-- Access trace of notify_response_error: the assignment to the slot
happens inside the async with block on the Plugin lock. -/
def notifyAccessTrace : List AccessEv :=
  [AccessEv.acq, AccessEv.writeSlot, AccessEv.rel]

/-- Access trace of get_response_error: the read of the slot happens
inside the async with block on the Plugin lock. -/
def getterAccessTrace : List AccessEv :=
  [AccessEv.acq, AccessEv.readSlot, AccessEv.rel]

/-- Access trace of the except branch of predict: it raises
RuntimeError with the value of the class slot, reading it directly with
no lock acquisition around the read. -/
def predictReadTrace : List AccessEv :=
  [AccessEv.readSlot]

/-- Primitive accesses performed by each transport event: a dispatch is
network io, a backoff is a sleep suspension, and the error callback is
exactly notify_response_error. -/
def eventAccesses : TransportEvent → List AccessEv
  | .netEv => [AccessEv.netIO]
  | .sleepEv _ => [AccessEv.sleepSusp]
  | .writeErr _ => notifyAccessTrace

/-- The full primitive access trace of a transport run. -/
def accessTrace (evs : List TransportEvent) : List AccessEv :=
  (evs.map eventAccesses).flatten

/-- The access trace of a predict call whose request exhausts its
retries: the whole transport run followed by the lock-free read predict
performs while raising. -/
def predictFailTrace (cfg : TransportConfig)
    (oracle : Nat → AttemptOutcome) : List AccessEv :=
  accessTrace (handleAsyncRequest cfg oracle).1 ++ predictReadTrace

/-- Lock discipline checker. Walks a trace tracking the lock depth:
fails on releasing an unheld lock, on a suspension (network io or
sleep) while the lock is held, on an unlocked write when writeLocked is
demanded, and on an unlocked read when readLocked is demanded. Returns
the final depth on success. -/
def scanAccess (readLocked writeLocked : Bool) :
    Nat → List AccessEv → Option Nat
  | d, [] => some d
  | d, AccessEv.acq :: r => scanAccess readLocked writeLocked (d + 1) r
  | d, AccessEv.rel :: r =>
    match d with
    | 0 => none
    | d' + 1 => scanAccess readLocked writeLocked d' r
  | d, AccessEv.readSlot :: r =>
    if readLocked && d == 0 then none
    else scanAccess readLocked writeLocked d r
  | d, AccessEv.writeSlot :: r =>
    if writeLocked && d == 0 then none
    else scanAccess readLocked writeLocked d r
  | d, AccessEv.netIO :: r =>
    if d == 0 then scanAccess readLocked writeLocked d r else none
  | d, AccessEv.sleepSusp :: r =>
    if d == 0 then scanAccess readLocked writeLocked d r else none

/-- The class-level slot of Plugin: _response_error_message is a class
attribute, one per process, not one per instance. -/
structure PluginClassState where
  responseErrorMessage : String
deriving DecidableEq, Repr

/-- Per-instance state of Plugin set by the constructor. -/
structure PluginInstanceState where
  isSetupCompleted : Bool
deriving DecidableEq, Repr

/-- A process with the single class state and any number of Plugin
instances. -/
structure PluginWorld where
  classState : PluginClassState
  instances : List PluginInstanceState
deriving DecidableEq, Repr

/-- notify_response_error invoked through instance callerIdx: the
assignment targets Plugin._response_error_message, the class attribute,
so the writing instance is irrelevant and per-instance state is
untouched. -/
def notifyResponseError (w : PluginWorld) (_callerIdx : Nat)
    (msg : String) : PluginWorld :=
  { w with classState := { responseErrorMessage := msg } }

/-- get_response_error invoked through instance callerIdx: reads the
class attribute, so the reading instance is irrelevant. -/
def getResponseError (w : PluginWorld) (_callerIdx : Nat) : String :=
  w.classState.responseErrorMessage

/-- One operation value inside the paths mapping; only the operationId
key matters to setup. -/
structure PathOperation where
  operationId : Option String
deriving DecidableEq, Repr

/-- The api schema as setup sees it: the paths mapping from path to a
mapping from http method to operation. -/
structure ApiSchema where
  paths : List (String × List (String × PathOperation))
deriving DecidableEq, Repr

/-- The in-place update setup performs on the stored schema: if there
is a first path with a first method, set the operationId of that
operation to predict_api. -/
def tagFirstOperation (s : ApiSchema) : ApiSchema :=
  match s.paths with
  | [] => s
  | (p, ops) :: restPaths =>
    match ops with
    | [] => s
    | (m, op) :: restOps =>
      { paths := (p, (m, { op with operationId := some "predict_api" }) :: restOps)
          :: restPaths }

/-- A security scheme entry: its type and, for http schemes, the sub
scheme. -/
structure SecurityScheme where
  type : String
  scheme_ : String
deriving DecidableEq, Repr

/-- The parsed api instance produced by OpenAPI.loads, as far as the
authentication step consults it. -/
structure ApiInstance where
  securitySchemes : List (String × SecurityScheme)
deriving DecidableEq, Repr

/-- The caller-supplied api config: an optional authentication mapping. -/
structure ApiConfig where
  authentication : Option (List (String × String))
deriving DecidableEq, Repr

/-- config.get("authentication", an empty dict).get(key, an empty
string): absent sections and absent keys default to the empty string
and never fail. -/
def authGet (c : ApiConfig) (k : String) : String :=
  ((c.authentication.getD []).lookup k).getD ""

/-- A credential registered with the client by authenticate. -/
inductive AuthCredential
  | bearer (token : String)
  | basic (username password : String)
deriving DecidableEq, Repr

/-- The body of the loop in setup_api_authentication for one named
scheme, appending the authenticate call it performs, if any: http
bearer registers the token, http basic registers the username and
password pair, and every other scheme type falls through silently. -/
def authStep (c : ApiConfig) (acc : List (String × AuthCredential))
    (entry : String × SecurityScheme) : List (String × AuthCredential) :=
  if strLower entry.2.type = "http" then
    if strLower entry.2.scheme_ = "bearer" then
      acc ++ [(entry.1, AuthCredential.bearer (authGet c "token"))]
    else if strLower entry.2.scheme_ = "basic" then
      acc ++ [(entry.1, AuthCredential.basic (authGet c "username")
        (authGet c "password"))]
    else acc
  else acc

/-- setup_api_authentication: the list of authenticate calls performed,
in the order of the securitySchemes entries. -/
def setupApiAuthentication (schemes : List (String × SecurityScheme))
    (c : ApiConfig) : List (String × AuthCredential) :=
  schemes.foldl (authStep c) []

/-- The per-entry mapping that setup_api_authentication realizes, used
to state its characterization. -/
def authCredOf (c : ApiConfig) (entry : String × SecurityScheme) :
    Option (String × AuthCredential) :=
  if strLower entry.2.type = "http" then
    if strLower entry.2.scheme_ = "bearer" then
      some (entry.1, AuthCredential.bearer (authGet c "token"))
    else if strLower entry.2.scheme_ = "basic" then
      some (entry.1, AuthCredential.basic (authGet c "username")
        (authGet c "password"))
    else none
  else none

/-- Run the authenticate calls in order against the library, an oracle
that may raise; the first failure aborts. -/
def runAuthAll (authCall : String → AuthCredential → Except String Unit) :
    List (String × AuthCredential) → Except String Unit
  | [] => Except.ok ()
  | (n, cred) :: rest =>
    match authCall n cred with
    | .error m => Except.error m
    | .ok _ => runAuthAll authCall rest

/-- The mutable connector state touched by setup: the stored schema
(mutated in place when tagging the first operation), the api instance
slot, and the setup completed flag. -/
structure ConnectorState where
  apiSchema : ApiSchema
  apiInstance : Option ApiInstance
  isSetupCompleted : Bool
deriving DecidableEq, Repr

/-- setup: validate (oracle validateR), then tag the first declared
operation in the stored schema in place, then construct the client
from the tagged schema (oracle loadsR), store it in the instance slot,
run the authentication step (library calls through oracle authCall),
and only then mark setup completed. Any exception is caught and
returned as a false flag with the exception text; mutations already
performed stay. -/
def setup (st : ConnectorState) (validateR : Except String Unit)
    (loadsR : ApiSchema → Except String ApiInstance)
    (authCall : String → AuthCredential → Except String Unit)
    (config : ApiConfig) : ConnectorState × Bool × String :=
  match validateR with
  | .error m => (st, false, m)
  | .ok _ =>
    let tagged := tagFirstOperation st.apiSchema
    let st1 := { st with apiSchema := tagged }
    match loadsR tagged with
    | .error m => (st1, false, m)
    | .ok inst =>
      let st2 := { st1 with apiInstance := some inst }
      match runAuthAll authCall (setupApiAuthentication inst.securitySchemes config) with
      | .error m => (st2, false, m)
      | .ok _ => ({ st2 with isSetupCompleted := true }, true, "")

/-- The fixed content type priority of get_schema_content. -/
def contentPriority : List String :=
  ["application/json", "multipart/form-data", "application/x-www-form-urlencoded"]

/-- get_schema_content over the requestBody content mapping of the
predict operation: an if/elif chain over the three supported content
types, in source order, returning the schema of the first one present
and raising NotImplementedError when none is. -/
def getSchemaContent {α : Type} (content : List (String × α)) :
    Except String α :=
  match content.lookup "application/json" with
  | some s => Except.ok s
  | none =>
    match content.lookup "multipart/form-data" with
    | some s => Except.ok s
    | none =>
      match content.lookup "application/x-www-form-urlencoded" with
      | some s => Except.ok s
      | none => Except.error "NotImplementedError"

/-- The schema attached to a parameter; only its enum list matters to
the header loop. -/
structure ParamSchema where
  enum : List String
deriving DecidableEq, Repr

/-- An operation parameter: its name, its location name (the name of
the in enum member), whether it is required, and its schema. -/
structure Parameter where
  name : String
  inName : String
  required : Bool
  schema_ : ParamSchema
deriving DecidableEq, Repr

/-- Python dict update with a single key: replace the binding if the
key is present, else append it. -/
def dictUpdate : List (String × String) → String → String →
    List (String × String)
  | [], k, v => [(k, v)]
  | (k', v') :: rest, k, v =>
    if k' = k then (k, v) :: rest
    else (k', v') :: dictUpdate rest k v

/-- The body of the header loop in make_requests for one parameter: a
required header parameter with a nonempty enum sets the header to the
first enum entry; every other parameter leaves the headers unchanged. -/
def stepParam (hs : List (String × String)) (p : Parameter) :
    List (String × String) :=
  if strLower p.inName = "header" && p.required then
    match p.schema_.enum with
    | [] => hs
    | v :: _ => dictUpdate hs p.name v
  else hs

/-- The headers make_requests populates for a post operation. -/
def populateHeaders (ps : List Parameter) : List (String × String) :=
  ps.foldl stepParam []

/-- The fixed example payload make_requests builds the body from. -/
def fixedPayload : List (String × Nat) :=
  [("age", 1), ("gender", 2), ("race", 3), ("income", 4),
   ("employment", 5), ("employment_length", 6), ("total_donated", 7),
   ("num_donation", 8)]

/-- The predict operation as make_requests consults it: its http
method, its parameter list and its requestBody content mapping. -/
structure Operation (α : Type) where
  method : String
  parameters : List Parameter
  content : List (String × α)

/-- The request make_requests hands to the library: for post, the
populated headers, the resolved body schema and the example payload
body; for get, the example payload as parameters and no body. -/
inductive BuiltRequest (α : Type)
  | post (headers : List (String × String)) (bodySchema : α)
      (body : List (String × Nat))
  | get (params : List (String × Nat))

/-- make_requests up to the library dispatch: resolve the method,
resolve the body content type through get_schema_content for post,
populate headers from the parameters, and fail with the source error
text for any other method. -/
def makeRequests {α : Type} (op : Operation α) :
    Except String (BuiltRequest α) :=
  if strLower op.method = "post" then
    match getSchemaContent op.content with
    | .error m => Except.error m
    | .ok sch =>
      Except.ok (BuiltRequest.post (populateHeaders op.parameters) sch fixedPayload)
  else if strLower op.method = "get" then
    Except.ok (BuiltRequest.get fixedPayload)
  else Except.error "Unexpected api method"

/-- Folding the shared slot over an appended event list splits at the
append. -/
theorem sharedAfter_append (init : String) (a b : List TransportEvent) :
    sharedAfter init (a ++ b) = sharedAfter (sharedAfter init a) b := by
  simp [sharedAfter, List.foldl_append]

/-- The lock discipline checker distributes over append through the
depth it returns. -/
theorem scanAccess_append (rl wl : Bool) (xs : List AccessEv) :
    ∀ (d : Nat) (ys : List AccessEv),
      scanAccess rl wl d (xs ++ ys) =
        (scanAccess rl wl d xs).bind (fun d2 => scanAccess rl wl d2 ys) := by
  induction xs with
  | nil => intro d ys; simp [scanAccess]
  | cons e rest ih =>
    intro d ys
    cases e with
    | acq => simpa [scanAccess] using ih (d + 1) ys
    | rel =>
      cases d with
      | zero => simp [scanAccess]
      | succ d' => simpa [scanAccess] using ih d' ys
    | readSlot =>
      by_cases h : (rl && d == 0) = true
      · simp [scanAccess, h]
      · simpa [scanAccess, h] using ih d ys
    | writeSlot =>
      by_cases h : (wl && d == 0) = true
      · simp [scanAccess, h]
      · simpa [scanAccess, h] using ih d ys
    | netIO =>
      by_cases h : (d == 0) = true
      · simpa [scanAccess, h] using ih d ys
      · simp [scanAccess, h]
    | sleepSusp =>
      by_cases h : (d == 0) = true
      · simpa [scanAccess, h] using ih d ys
      · simp [scanAccess, h]

/-- Every access block generated by a single transport event starts and
ends unlocked, keeps writes inside the lock, and never suspends while
holding the lock, whether or not reads are required to be locked. -/
theorem scanAccess_event (rl : Bool) (e : TransportEvent) :
    scanAccess rl true 0 (eventAccesses e) = some 0 := by
  cases e <;> rfl

/-- A whole transport run is lock disciplined: balanced, all writes
locked, no suspension while locked. -/
theorem scanAccess_accessTrace (rl : Bool) (evs : List TransportEvent) :
    scanAccess rl true 0 (accessTrace evs) = some 0 := by
  induction evs with
  | nil => rfl
  | cons e rest ih =>
    have hsplit : accessTrace (e :: rest) = eventAccesses e ++ accessTrace rest := by
      simp [accessTrace]
    rw [hsplit, scanAccess_append, scanAccess_event]
    simpa using ih

/-- Unfolding one iteration of the loop. -/
theorem runLoop_succ (cfg : TransportConfig) (oracle : Nat → AttemptOutcome)
    (fuel attempt : Nat) (errMsg : String) :
    runLoop cfg oracle (fuel + 1) attempt errMsg =
      match attemptStep cfg attempt errMsg (oracle attempt) with
      | (evs, Sum.inl res) => (evs, res)
      | (evs, Sum.inr m) =>
        (evs ++ (runLoop cfg oracle fuel (attempt + 1) m).1,
          (runLoop cfg oracle fuel (attempt + 1) m).2) := rfl

/-- Main loop lemma: when every attempt up to the budget has a
retryable outcome, the loop ends in the terminal raise carrying the
message of the last attempt, the write of the shared slot is the last
event, and the slot ends holding the same message whatever it held
before. -/
theorem runLoop_all_retryable (cfg : TransportConfig)
    (oracle : Nat → AttemptOutcome) :
    ∀ (k attempt : Nat) (errMsg : String),
      attempt + k = cfg.retries →
      (∀ i, attempt ≤ i → i ≤ cfg.retries → retryableOutcome (oracle i) = true) →
      (runLoop cfg oracle (k + 1) attempt errMsg).2 =
          Except.error (maxMsg cfg (outcomeMsg (oracle cfg.retries))) ∧
      (runLoop cfg oracle (k + 1) attempt errMsg).1.getLast? =
          some (TransportEvent.writeErr
            (maxMsg cfg (outcomeMsg (oracle cfg.retries)))) ∧
      ∀ init, sharedAfter init (runLoop cfg oracle (k + 1) attempt errMsg).1 =
          maxMsg cfg (outcomeMsg (oracle cfg.retries)) := by
  intro k
  induction k with
  | zero =>
    intro attempt errMsg hsum hall
    have ha : attempt = cfg.retries := by omega
    rw [ha, runLoop_succ]
    cases hout : oracle cfg.retries with
    | netError m =>
      simp [attemptStep, hout, handleAttemptRetries, maxMsg,
        outcomeMsg, sharedAfter]
    | response r =>
      have hret := hall cfg.retries (by omega) le_rfl
      rw [hout] at hret
      have hmem : r.statusCode ∈ apiStatusCodes := by
        simpa [retryableOutcome] using hret
      simp [attemptStep, hout, hmem, handleAttemptRetries, maxMsg,
        outcomeMsg, sharedAfter]
  | succ k ih =>
    intro attempt errMsg hsum hall
    have hne : ¬ attempt = cfg.retries := by omega
    have hsum2 : (attempt + 1) + k = cfg.retries := by omega
    have hall2 : ∀ i, attempt + 1 ≤ i → i ≤ cfg.retries →
        retryableOutcome (oracle i) = true :=
      fun i h1 h2 => hall i (by omega) h2
    rw [runLoop_succ]
    cases hout : oracle attempt with
    | netError m =>
      obtain ⟨ih1, ih2, ih3⟩ := ih (attempt + 1) m hsum2 hall2
      have hne2 : (runLoop cfg oracle (k + 1) (attempt + 1) m).1 ≠ [] := by
        intro hnil
        rw [hnil] at ih2
        simp at ih2
      have hstep : attemptStep cfg attempt errMsg (AttemptOutcome.netError m) =
          (TransportEvent.netEv ::
            (match handleAttemptRetries cfg attempt none with
              | some t => [TransportEvent.sleepEv t]
              | none => []), Sum.inr m) := by
        simp [attemptStep, hne]
      rw [hstep]
      refine ⟨ih1, ?_, ?_⟩
      · show (List.cons _ _ ++ _).getLast? = _
        rw [List.getLast?_append_of_ne_nil _ hne2]
        exact ih2
      · intro init
        show sharedAfter init (List.cons _ _ ++ _) = _
        rw [sharedAfter_append]
        exact ih3 _
    | response r =>
      have hret := hall attempt (le_refl _) (by omega)
      rw [hout] at hret
      have hmem : r.statusCode ∈ apiStatusCodes := by
        simpa [retryableOutcome] using hret
      obtain ⟨ih1, ih2, ih3⟩ := ih (attempt + 1) (statusMsg r.statusCode) hsum2 hall2
      have hne2 : (runLoop cfg oracle (k + 1) (attempt + 1)
          (statusMsg r.statusCode)).1 ≠ [] := by
        intro hnil
        rw [hnil] at ih2
        simp at ih2
      have hstep : attemptStep cfg attempt errMsg (AttemptOutcome.response r) =
          (TransportEvent.netEv ::
            (match handleAttemptRetries cfg attempt (some r.statusCode) with
              | some t => [TransportEvent.sleepEv t]
              | none => []), Sum.inr (statusMsg r.statusCode)) := by
        simp [attemptStep, hne, hmem]
      rw [hstep]
      refine ⟨ih1, ?_, ?_⟩
      · show (List.cons _ _ ++ _).getLast? = _
        rw [List.getLast?_append_of_ne_nil _ hne2]
        exact ih2
      · intro init
        show sharedAfter init (List.cons _ _ ++ _) = _
        rw [sharedAfter_append]
        exact ih3 _

/-- Looking up the key just written by a Python dict update finds the
new value. -/
theorem lookup_dictUpdate_self (hs : List (String × String)) (k v : String) :
    (dictUpdate hs k v).lookup k = some v := by
  induction hs with
  | nil => simp [dictUpdate, List.lookup]
  | cons kv rest ih =>
    obtain ⟨k', v'⟩ := kv
    by_cases h : k' = k
    · subst h
      simp [dictUpdate, List.lookup]
    · have hbeq : (k == k') = false := beq_eq_false_iff_ne.mpr (Ne.symm h)
      simp [dictUpdate, h, List.lookup, hbeq, ih]

/-- A Python dict update leaves every other key unchanged. -/
theorem lookup_dictUpdate_ne (hs : List (String × String)) (k v n : String)
    (h : n ≠ k) :
    (dictUpdate hs k v).lookup n = hs.lookup n := by
  have hbeq : (n == k) = false := beq_eq_false_iff_ne.mpr h
  induction hs with
  | nil => simp [dictUpdate, List.lookup, hbeq]
  | cons kv rest ih =>
    obtain ⟨k', v'⟩ := kv
    by_cases h2 : k' = k
    · subst h2
      simp [dictUpdate, List.lookup, hbeq]
    · simp [dictUpdate, h2, List.lookup, ih]

/-- The header loop never touches a header name that none of the
processed parameters bears. -/
theorem lookup_foldl_stepParam (ps : List Parameter) :
    ∀ (hs : List (String × String)) (n : String),
      (∀ q ∈ ps, q.name ≠ n) →
      (ps.foldl stepParam hs).lookup n = hs.lookup n := by
  induction ps with
  | nil =>
    intro hs n _
    rfl
  | cons p rest ih =>
    intro hs n h
    have hp : p.name ≠ n := h p (by simp)
    have hrest : ∀ q ∈ rest, q.name ≠ n := fun q hq => h q (by simp [hq])
    rw [List.foldl_cons, ih _ n hrest]
    unfold stepParam
    by_cases hcond : (strLower p.inName = "header" && p.required) = true
    · rw [if_pos hcond]
      cases henum : p.schema_.enum with
      | nil => rfl
      | cons v vs => exact lookup_dictUpdate_ne _ _ _ _ (Ne.symm hp)
    · rw [if_neg hcond]

/-- One authentication loop step appends the credential the entry maps
to, if any. -/
theorem authStep_eq (c : ApiConfig) (acc : List (String × AuthCredential))
    (e : String × SecurityScheme) :
    authStep c acc e = acc ++ (authCredOf c e).toList := by
  unfold authStep authCredOf
  split_ifs <;> simp

/-- Looking up the own name of a required header parameter after its
step: set to the first enum entry when the enum is nonempty, untouched
when it is empty. -/
theorem stepParam_lookup_self (hs : List (String × String)) (p : Parameter)
    (hcond : (strLower p.inName = "header" && p.required) = true) :
    (p.schema_.enum = [] → (stepParam hs p).lookup p.name = hs.lookup p.name) ∧
    (∀ v vs, p.schema_.enum = v :: vs →
      (stepParam hs p).lookup p.name = some v) := by
  constructor
  · intro henum
    unfold stepParam
    rw [if_pos hcond, henum]
  · intro v vs henum
    unfold stepParam
    rw [if_pos hcond, henum]
    exact lookup_dictUpdate_self _ _ _

/-- Folding the authentication loop accumulates exactly the per-entry
credential mapping, in order. -/
theorem authStep_foldl (c : ApiConfig) (schemes : List (String × SecurityScheme)) :
    ∀ acc, schemes.foldl (authStep c) acc =
      acc ++ schemes.filterMap (authCredOf c) := by
  induction schemes with
  | nil => intro acc; simp
  | cons e rest ih =>
    intro acc
    rw [List.foldl_cons, ih, authStep_eq, List.filterMap_cons]
    cases authCredOf c e <;> simp

/-- C1: predict on a successful request prints the raw response text to
stdout and returns None; it does not return the response text to its
caller, contradicting its own docstring, which promises the predicted
result as the return value. -/
theorem c1_predict_prints_response_instead_of_returning_it :
    predictModel "" (Except.ok ⟨200, "hello"⟩) =
      { printed := ["hello"], result := Except.ok none } ∧
    (predictModel "" (Except.ok ⟨200, "hello"⟩)).result ≠
      Except.ok (some "hello") := by
  refine ⟨rfl, ?_⟩
  simp [predictModel]

/-- C2: a response with a status outside the retryable list arriving on
the terminal attempt is not returned: the finally clause of the loop
runs on the pending return and raises the maximum retries error built
from the previous attempt. On earlier attempts the same response is
returned unmodified. -/
theorem c2_terminal_attempt_success_is_raised_not_returned :
    (handleAsyncRequest defaultTransportConfig
        (fun i => if i < 3 then AttemptOutcome.response ⟨429, "limited"⟩
                  else AttemptOutcome.response ⟨200, "ok"⟩)).2 =
      Except.error
        "Maximum retries exceeded (3) Response status code: 429 (TOO_MANY_REQUESTS)" ∧
    (handleAsyncRequest defaultTransportConfig
        (fun _ => AttemptOutcome.response ⟨200, "ok"⟩)).2 =
      Except.ok ⟨200, "ok"⟩ :=
  ⟨rfl, rfl⟩

/-- C3: when all maxRetries + 1 attempts fail retryably, the send fails
with the message Maximum retries exceeded followed by the retry budget
and the error text of the last attempt, the shared slot is written with
that exact message as the last event before the raise, the slot then
equals the message whatever it held before, predict surfaces the same
message as its failure, and the message contains the text Maximum
retries exceeded. -/
theorem c3_retry_exhaustion_message_and_shared_state
    (cfg : TransportConfig) (oracle : Nat → AttemptOutcome) (init : String)
    (hall : ∀ i, i ≤ cfg.retries → retryableOutcome (oracle i) = true) :
    (handleAsyncRequest cfg oracle).2 =
        Except.error (maxMsg cfg (outcomeMsg (oracle cfg.retries))) ∧
    (handleAsyncRequest cfg oracle).1.getLast? =
        some (TransportEvent.writeErr
          (maxMsg cfg (outcomeMsg (oracle cfg.retries)))) ∧
    sharedAfter init (handleAsyncRequest cfg oracle).1 =
        maxMsg cfg (outcomeMsg (oracle cfg.retries)) ∧
    predictModel (sharedAfter init (handleAsyncRequest cfg oracle).1)
        ((handleAsyncRequest cfg oracle).2) =
      { printed := [],
        result := Except.error (maxMsg cfg (outcomeMsg (oracle cfg.retries))) } ∧
    (∃ rest, maxMsg cfg (outcomeMsg (oracle cfg.retries)) =
        "Maximum retries exceeded" ++ rest) := by
  obtain ⟨h1, h2, h3⟩ :=
    runLoop_all_retryable cfg oracle cfg.retries 0 "" (by omega)
      (fun i _ h => hall i h)
  have hreq : handleAsyncRequest cfg oracle =
      runLoop cfg oracle (cfg.retries + 1) 0 "" := rfl
  refine ⟨by rw [hreq]; exact h1, by rw [hreq]; exact h2,
    by rw [hreq]; exact h3 init, ?_, ?_⟩
  · rw [hreq, h1, h3 init]
    rfl
  · refine ⟨" (" ++ toString cfg.retries ++ ") " ++
      outcomeMsg (oracle cfg.retries), ?_⟩
    have hsplit : ("Maximum retries exceeded (" : String) =
        "Maximum retries exceeded" ++ " (" := rfl
    simp only [maxMsg, hsplit, String.append_assoc]

/-- Witness for C3 at the default configuration with every attempt
answering status 429. -/
theorem c3_witness :
    (handleAsyncRequest defaultTransportConfig
        (fun _ => AttemptOutcome.response ⟨429, "x"⟩)).2 =
      Except.error (maxMsg defaultTransportConfig
        (outcomeMsg (AttemptOutcome.response ⟨429, "x"⟩))) :=
  (c3_retry_exhaustion_message_and_shared_state defaultTransportConfig
    (fun _ => AttemptOutcome.response ⟨429, "x"⟩) ""
    (fun _ _ => rfl)).1

/-- C4: no delay precedes the terminal attempt; on non-terminal
attempts a failing status 429 sleeps exactly the rate limit timeout
whatever the attempt index, any other outcome sleeps the floor of the
backoff factor times 2 to the attempt minus 1, and with the default
configuration the delays at attempts 0, 1, 2 are 1s, 2s, 4s. -/
theorem c4_backoff_delays (cfg : TransportConfig) (attempt : Nat)
    (status : Option Nat) :
    (attempt = cfg.retries → handleAttemptRetries cfg attempt status = none) ∧
    (attempt < cfg.retries → status = some 429 →
      handleAttemptRetries cfg attempt status = some cfg.rateLimitTimeout) ∧
    (attempt < cfg.retries → status ≠ some 429 →
      handleAttemptRetries cfg attempt status =
        some (((Int.floor (apiBackoffFactor * (2 : ℚ) ^ ((attempt : ℤ) - 1)) : ℤ) : ℚ))) ∧
    handleAttemptRetries defaultTransportConfig 0 (some 500) = some 1 ∧
    handleAttemptRetries defaultTransportConfig 1 (some 500) = some 2 ∧
    handleAttemptRetries defaultTransportConfig 2 (some 500) = some 4 ∧
    handleAttemptRetries defaultTransportConfig 3 (some 500) = none ∧
    handleAttemptRetries defaultTransportConfig 1 (some 429) =
      some defaultTransportConfig.rateLimitTimeout := by
  refine ⟨?_, ?_, ?_, ?_, ?_, ?_, rfl, rfl⟩
  · intro h
    simp [handleAttemptRetries, h]
  · intro h h429
    have hne : ¬ attempt = cfg.retries := by omega
    simp [handleAttemptRetries, hne, h429]
  · intro h h429
    have hne : ¬ attempt = cfg.retries := by omega
    simp [handleAttemptRetries, hne, h429]
  · simp [handleAttemptRetries, defaultTransportConfig]
    norm_num [apiBackoffFactor]
  · simp [handleAttemptRetries, defaultTransportConfig]
    norm_num [apiBackoffFactor]
  · simp [handleAttemptRetries, defaultTransportConfig]
    norm_num [apiBackoffFactor]

/-- Witness for C4 at attempt 1 of the default configuration with a
failing status 429. -/
theorem c4_witness :
    handleAttemptRetries defaultTransportConfig 1 (some 429) =
      some defaultTransportConfig.rateLimitTimeout :=
  (c4_backoff_delays defaultTransportConfig 1 (some 429)).2.1
    (by decide) rfl

/-- Counterexample to C5: a setup call that fails while constructing
the client returns the failure flag, yet the stored schema is no longer
the schema held before the call: its first operation has been tagged in
place. -/
theorem c5_counterexample_failed_setup_mutates_schema :
    (setup ⟨⟨[("/predict", [("post", ⟨none⟩)])]⟩, none, false⟩
        (Except.ok ()) (fun _ => Except.error "load failed")
        (fun _ _ => Except.ok ()) ⟨none⟩).2.1 = false ∧
    (setup ⟨⟨[("/predict", [("post", ⟨none⟩)])]⟩, none, false⟩
        (Except.ok ()) (fun _ => Except.error "load failed")
        (fun _ _ => Except.ok ()) ⟨none⟩).1.apiSchema ≠
      (⟨[("/predict", [("post", ⟨none⟩)])]⟩ : ApiSchema) := by
  refine ⟨rfl, ?_⟩
  decide

/-- C5 amended: a setup that fails during validation leaves the whole
connector state unchanged; a setup that fails later keeps the setup
completed flag unchanged, but the operationId tag written into the
stored schema survives, and once client construction has succeeded the
api instance assignment survives too. The flag equals the old flag
joined with the success of the call. -/
theorem c5_amended_setup_failure_mutations (st : ConnectorState) (m : String)
    (loadsR : ApiSchema → Except String ApiInstance)
    (authCall : String → AuthCredential → Except String Unit)
    (config : ApiConfig) (validateR : Except String Unit) :
    setup st (Except.error m) loadsR authCall config = (st, false, m) ∧
    setup st (Except.ok ()) (fun _ => Except.error m) authCall config =
      ({ st with apiSchema := tagFirstOperation st.apiSchema }, false, m) ∧
    setup st (Except.ok ()) (fun _ => Except.ok ⟨[("sec", ⟨"http", "bearer"⟩)]⟩)
        (fun _ _ => Except.error m) config =
      ({ st with
          apiSchema := tagFirstOperation st.apiSchema,
          apiInstance := some ⟨[("sec", ⟨"http", "bearer"⟩)]⟩ }, false, m) ∧
    (setup st validateR loadsR authCall config).1.isSetupCompleted =
      ((setup st validateR loadsR authCall config).2.1 || st.isSetupCompleted) := by
  refine ⟨rfl, rfl, rfl, ?_⟩
  unfold setup
  cases validateR with
  | error e => simp
  | ok u =>
    cases hload : loadsR (tagFirstOperation st.apiSchema) with
    | error e => simp [hload]
    | ok inst =>
      cases hauth : runAuthAll authCall
          (setupApiAuthentication inst.securitySchemes config) with
      | error e => simp [hload, hauth]
      | ok u2 => simp [hload, hauth]

/-- Counterexample to C6: in a predict call that exhausts its retries,
the trace of slot accesses fails the checker that demands every read of
the slot happen inside the lock, because the read predict performs when
raising is outside any lock acquisition. -/
theorem c6_counterexample_predict_read_unlocked :
    scanAccess true true 0
      (predictFailTrace defaultTransportConfig
        (fun _ => AttemptOutcome.response ⟨429, "limited"⟩)) = none := by
  rfl

/-- C6 amended: over every transport run, all writes of the shared slot
happen inside the lock, the lock is never held across network io or a
sleep, the dedicated getter reads under the lock, and the notify path
writes under the lock; but the read predict performs when surfacing a
retry exhaustion failure is outside the lock, so the trace fails the
all-reads-locked check. -/
theorem c6_amended_lock_discipline (cfg : TransportConfig)
    (oracle : Nat → AttemptOutcome) :
    scanAccess false true 0 (predictFailTrace cfg oracle) = some 0 ∧
    scanAccess true true 0 (predictFailTrace cfg oracle) = none ∧
    scanAccess true true 0 getterAccessTrace = some 0 ∧
    scanAccess true true 0 notifyAccessTrace = some 0 := by
  refine ⟨?_, ?_, rfl, rfl⟩
  · unfold predictFailTrace
    rw [scanAccess_append, scanAccess_accessTrace]
    rfl
  · unfold predictFailTrace
    rw [scanAccess_append, scanAccess_accessTrace]
    rfl

/-- C7: the lock and the last error message are class level state of
Plugin: a message written through any instance is the value read
through any other instance, the last writer wins, and per-instance
state is untouched by the write. -/
theorem c7_error_slot_is_class_level_shared_across_instances
    (w : PluginWorld) (i j k : Nat) (m1 m2 : String) :
    getResponseError (notifyResponseError w i m1) j = m1 ∧
    getResponseError (notifyResponseError (notifyResponseError w i m1) j m2) k = m2 ∧
    (notifyResponseError w i m1).instances = w.instances :=
  ⟨rfl, rfl, rfl⟩

/-- C8: the body content type is resolved by scanning the three
supported types in fixed priority order, taking the schema of the first
one present in the declared content mapping; the resolution fails
exactly when none of the three is present, as for a body declaring only
text plain. -/
theorem c8_content_type_priority {α : Type} (content : List (String × α)) :
    getSchemaContent content =
      (match contentPriority.findSome? (fun t => content.lookup t) with
        | some s => Except.ok s
        | none => Except.error "NotImplementedError") ∧
    ((∃ e, getSchemaContent content = Except.error e) ↔
      ∀ t ∈ contentPriority, content.lookup t = none) ∧
    getSchemaContent [("text/plain", (0 : Nat))] =
      Except.error "NotImplementedError" := by
  refine ⟨?_, ?_, rfl⟩
  · cases h1 : content.lookup "application/json" <;>
      cases h2 : content.lookup "multipart/form-data" <;>
        cases h3 : content.lookup "application/x-www-form-urlencoded" <;>
          simp [getSchemaContent, contentPriority, List.findSome?_cons, h1, h2, h3]
  · have hmem : (∀ t ∈ contentPriority, content.lookup t = none) ↔
        (content.lookup "application/json" = none ∧
          content.lookup "multipart/form-data" = none ∧
          content.lookup "application/x-www-form-urlencoded" = none) := by
      constructor
      · intro h
        exact ⟨h _ (by simp [contentPriority]), h _ (by simp [contentPriority]),
          h _ (by simp [contentPriority])⟩
      · rintro ⟨ha, hb, hc⟩ t ht
        simp only [contentPriority, List.mem_cons, List.not_mem_nil, or_false] at ht
        rcases ht with rfl | rfl | rfl
        · exact ha
        · exact hb
        · exact hc
    rw [hmem]
    cases h1 : content.lookup "application/json" <;>
      cases h2 : content.lookup "multipart/form-data" <;>
        cases h3 : content.lookup "application/x-www-form-urlencoded" <;>
          simp only [getSchemaContent, h1, h2, h3] <;>
            simp

/-- C9: for a required header parameter among the operation parameters,
a schema with a nonempty enum makes the built headers carry the first
enum entry under the parameter name, an empty enum leaves that header
name unset, and in both cases building the post request succeeds. -/
theorem c9_required_header_enum (ps : List Parameter) (p : Parameter)
    (hmem : p ∈ ps) (hnodup : (ps.map Parameter.name).Nodup)
    (hreq : p.required = true) (hloc : strLower p.inName = "header") :
    (∀ v vs, p.schema_.enum = v :: vs →
      (populateHeaders ps).lookup p.name = some v) ∧
    (p.schema_.enum = [] → (populateHeaders ps).lookup p.name = none) ∧
    (∀ (α : Type) (sch : α) (rest : List (String × α)),
      makeRequests { method := "POST", parameters := ps
                     content := ("application/json", sch) :: rest } =
        Except.ok (BuiltRequest.post (populateHeaders ps) sch fixedPayload)) := by
  obtain ⟨l1, l2, rfl⟩ := List.append_of_mem hmem
  have hnames : (l1.map Parameter.name ++
      p.name :: l2.map Parameter.name).Nodup := by
    simpa using hnodup
  have hl1 : ∀ q ∈ l1, q.name ≠ p.name := by
    intro q hq heq
    have : p.name ∈ l1.map Parameter.name := heq ▸ List.mem_map_of_mem _ hq
    exact (List.disjoint_of_nodup_append hnames) this (by simp)
  have hl2 : ∀ q ∈ l2, q.name ≠ p.name := by
    intro q hq heq
    have hn2 : (p.name :: l2.map Parameter.name).Nodup :=
      hnames.sublist (List.sublist_append_right _ _)
    have : p.name ∈ l2.map Parameter.name := heq ▸ List.mem_map_of_mem _ hq
    exact (List.nodup_cons.mp hn2).1 this
  have hfold : populateHeaders (l1 ++ p :: l2) =
      (p :: l2).foldl stepParam (l1.foldl stepParam []) := by
    simp [populateHeaders, List.foldl_append]
  have hcond : (strLower p.inName = "header" && p.required) = true := by
    simp [hloc, hreq]
  refine ⟨?_, ?_, ?_⟩
  · intro v vs henum
    rw [hfold, List.foldl_cons, lookup_foldl_stepParam l2 _ _ hl2]
    exact (stepParam_lookup_self _ p hcond).2 v vs henum
  · intro henum
    rw [hfold, List.foldl_cons, lookup_foldl_stepParam l2 _ _ hl2,
      (stepParam_lookup_self _ p hcond).1 henum,
      lookup_foldl_stepParam l1 _ _ hl1]
    rfl
  · intro α sch rest
    rfl

/-- Witness for C9 on a one-parameter list with a two-entry enum. -/
theorem c9_witness :
    (populateHeaders [⟨"X-Mode", "header", true, ⟨["fast", "slow"]⟩⟩]).lookup
      "X-Mode" = some "fast" :=
  (c9_required_header_enum [⟨"X-Mode", "header", true, ⟨["fast", "slow"]⟩⟩]
    ⟨"X-Mode", "header", true, ⟨["fast", "slow"]⟩⟩
    (by simp) (by simp) rfl (by decide)).1 "fast" ["slow"] rfl

/-- C10: the authentication step maps each named security scheme entry
through a fixed rule: http bearer registers the configured token, http
basic registers the configured username and password pair, anything
else registers nothing; missing credentials default to the empty
string; a contract with no securitySchemes entries registers nothing
and setup still completes successfully. -/
theorem c10_authentication_configuration
    (schemes : List (String × SecurityScheme)) (config : ApiConfig)
    (st : ConnectorState)
    (authCall : String → AuthCredential → Except String Unit)
    (n k2 : String) :
    setupApiAuthentication schemes config =
      schemes.filterMap (authCredOf config) ∧
    authCredOf config (n, ⟨"http", "bearer"⟩) =
      some (n, AuthCredential.bearer (authGet config "token")) ∧
    authCredOf config (n, ⟨"http", "basic"⟩) =
      some (n, AuthCredential.basic (authGet config "username")
        (authGet config "password")) ∧
    authCredOf config (n, ⟨"apiKey", "bearer"⟩) = none ∧
    authCredOf config (n, ⟨"http", "digest"⟩) = none ∧
    authGet ⟨none⟩ k2 = "" ∧
    setupApiAuthentication [] config = [] ∧
    setup st (Except.ok ()) (fun _ => Except.ok ⟨[]⟩) authCall config =
      ({ st with
          apiSchema := tagFirstOperation st.apiSchema,
          apiInstance := some ⟨[]⟩,
          isSetupCompleted := true }, true, "") := by
  refine ⟨?_, rfl, rfl, rfl, rfl, rfl, rfl, rfl⟩
  simpa using authStep_foldl config schemes []

end OpenAPIConnector
